import Mathlib

/-!
# Grammar-aware summariser client: a shallow embedding of `src/App.jsx`

The development embeds the two views of the single-page client:

* `Home` (the Input View): its state, the helpers `buildTones` and
  `summaryPercentFromLen`, the `wordCount` memo, `handleGenerate` and
  `openFull`;
* `Result` (the Result View): the way it reads the navigation state.

JavaScript values are embedded by the type `JsVal`.  The one asynchronous
operation, `axios.post`, is an input of the model: the caller supplies the
outcome of the call (`HttpResult`), and the effects a handler performs are
recorded in a list of `Effect`s.
-/

namespace Summariser

/-! ## JavaScript values -/

/-- JavaScript values as the client sees them: the values a JSON body can
hold, plus `undefined`.  Numbers are the finite numbers, kept exactly; the
program only ever observes whether a number is zero.  An object is kept as
its list of own properties, in which a key is looked up from the left. -/
inductive JsVal where
  | undefined
  | null
  | bool (b : Bool)
  | num (q : ℚ)
  | str (s : String)
  | arr (items : List JsVal)
  | obj (fields : List (String × JsVal))

/-- JavaScript truthiness (`ToBoolean`). -/
def truthy : JsVal → Bool
  | .undefined => false
  | .null => false
  | .bool b => b
  | .num q => decide (q ≠ 0)
  | .str s => decide (s ≠ "")
  | .arr _ => true
  | .obj _ => true

/-- The operator `a || b` on values that are already computed. -/
def jsOr (a b : JsVal) : JsVal :=
  if truthy a then a else b

/-- The comparison `v === "lit"` against a string literal. -/
def strictEqStr (v : JsVal) (lit : String) : Bool :=
  match v with
  | .str s => s == lit
  | _ => false

/-- Own-property lookup in a property list. -/
def lookupField (fields : List (String × JsVal)) (key : String) : JsVal :=
  match fields.find? (fun kv => kv.1 == key) with
  | some kv => kv.2
  | none => .undefined

/-- An exception value: an `Error` object, of which the program reads
`message` only. -/
structure JsError where
  message : String

/-- The text of the `TypeError` raised by a property read on `null` or
`undefined`.  The wording is the engine's (here V8's); the program only
observes whether it is empty. -/
def typeErrorMessage (base key : String) : String :=
  "Cannot read properties of " ++ base ++ " (reading " ++
    String.singleton (Char.ofNat 39) ++ key ++ String.singleton (Char.ofNat 39) ++ ")"

/-- The property read `v.key`: a `TypeError` on `null` and `undefined`, the
own property on an object, and `undefined` on the other values (none of the
keys the program reads is a property of a primitive or of an array). -/
def getProp (v : JsVal) (key : String) : Except JsError JsVal :=
  match v with
  | .undefined => .error ⟨typeErrorMessage "undefined" key⟩
  | .null => .error ⟨typeErrorMessage "null" key⟩
  | .obj fields => .ok (lookupField fields key)
  | _ => .ok .undefined

/-- The optional-chaining read `v?.key`: `undefined` on `null` and
`undefined`, otherwise as `v.key`. -/
def optChain (v : JsVal) (key : String) : JsVal :=
  match v with
  | .undefined => .undefined
  | .null => .undefined
  | .obj fields => lookupField fields key
  | _ => .undefined

/-! ## Strings: `trim` and `split(/\s+/)` -/

/-- The characters matched by `\s` and stripped by `String.prototype.trim`:
the ECMAScript `WhiteSpace` and `LineTerminator` code points.  All of them
lie in the Basic Multilingual Plane, so scanning a text by code point agrees
with the engine scanning it by UTF-16 code unit. -/
def isJsWhitespace (c : Char) : Bool :=
  let n := c.toNat
  n == 0x09 || n == 0x0A || n == 0x0B || n == 0x0C || n == 0x0D || n == 0x20 ||
  n == 0xA0 || n == 0x1680 || (0x2000 ≤ n && n ≤ 0x200A) || n == 0x2028 ||
  n == 0x2029 || n == 0x202F || n == 0x205F || n == 0x3000 || n == 0xFEFF

/-- The method `trim` on the characters of a string: whitespace is removed
from both ends. -/
def trimChars (cs : List Char) : List Char :=
  ((cs.dropWhile isJsWhitespace).reverse.dropWhile isJsWhitespace).reverse

/-- The method `String.prototype.trim`. -/
def trim (s : String) : String :=
  ⟨trimChars s.data⟩

/-- The scan of `split(/\s+/)`.  `inSep` says that the character before was
part of a separator match, which the greedy `\s+` extends over every
following whitespace character; `cur` is the piece being collected, in
reverse.  A separator match closes the current piece, and the end of the
string closes the last one. -/
def splitWsAux : List Char → Bool → List Char → List (List Char)
  | [], _, cur => [cur.reverse]
  | c :: cs, inSep, cur =>
    if isJsWhitespace c then
      if inSep then splitWsAux cs true [] else cur.reverse :: splitWsAux cs true []
    else splitWsAux cs false (c :: cur)

/-- The call `s.split(/\s+/)`. -/
def splitWhitespace (s : String) : List String :=
  (splitWsAux s.data false []).map String.mk

/-- The `wordCount` memo of `Home`:
`if (!text.trim()) return 0; return text.trim().split(/\s+/).filter(Boolean).length`. -/
def wordCount (text : String) : Nat :=
  if trim text = "" then 0
  else ((splitWhitespace (trim text)).filter (fun t => decide (t ≠ ""))).length

/-! ## The helpers of the Input View -/

/-- The constant `BACKEND_URL`. -/
def BACKEND_URL : String := "http://localhost:8000/summarize"

/-- The ids of `SUMMARY_OPTIONS`. -/
def SUMMARY_OPTIONS : List String := ["concise", "detailed", "comprehensive"]

/-- The ids of `STYLE_OPTIONS`. -/
def STYLE_OPTIONS : List String := ["formal", "professional", "executive"]

/-- A tones object: tone names with their integer weights. -/
abbrev Tones := List (String × Nat)

/-- The function `buildTones`: a `switch` on the style id. -/
def buildTones (styleId : JsVal) : Tones :=
  if strictEqStr styleId "formal" then [("formal", 85), ("concise", 15)]
  else if strictEqStr styleId "professional" then [("professional", 80), ("concise", 20)]
  else if strictEqStr styleId "executive" then [("executive", 70), ("concise", 30)]
  else [("formal", 70), ("concise", 30)]

/-- The function `summaryPercentFromLen`. -/
def summaryPercentFromLen (len : JsVal) : Nat :=
  if strictEqStr len "concise" then 12
  else if strictEqStr len "detailed" then 25
  else 60

/-- The sum of the weights of a tones object. -/
def tonesTotal (t : Tones) : Nat :=
  (t.map Prod.snd).sum

/-! ## The Input View -/

/-- The state of `Home`, one field per `useState` cell.  `error` is `null`
(`none`) or a string. -/
structure HomeState where
  summaryLen : String
  style : String
  text : String
  loading : Bool
  error : Option String
  previewSummary : JsVal
  previewCorrected : JsVal
  previewMetadata : JsVal

/-- The state `Home` is mounted with. -/
def initialState : HomeState where
  summaryLen := "detailed"
  style := "formal"
  text := ""
  loading := false
  error := none
  previewSummary := .str ""
  previewCorrected := .str ""
  previewMetadata := .obj []

/-- The request body built by `handleGenerate`. -/
structure Payload where
  text : String
  summary_length_percent : Nat
  tones : Tones
  do_grammar_correction : Bool
  paraphrase_after : Bool

/-- The effects a handler performs on the outside world. -/
inductive Effect where
  | httpPost (url : String) (body : Payload)
  | scrollPreviewAfter (delayMs : Nat)
  | navigate (path : String) (state : JsVal)

/-- Whether an effect is an HTTP POST. -/
def Effect.isHttpPost : Effect → Bool
  | .httpPost _ _ => true
  | _ => false

/-- The outcome of `await axios.post(...)`: the promise resolves with a
response, of which the program reads `data`, or it rejects with an error. -/
inductive HttpResult where
  | resolved (data : JsVal)
  | rejected (err : JsError)

/-- The payload `handleGenerate` builds from the state it closes over. -/
def buildPayload (s : HomeState) : Payload where
  text := s.text
  summary_length_percent := summaryPercentFromLen (.str s.summaryLen)
  tones := buildTones (.str s.style)
  do_grammar_correction := true
  paraphrase_after := true

/-- The expression `data.paraphrased_summary || data.summary || ""`. -/
def summaryExpr (data : JsVal) : Except JsError JsVal := do
  let p ← getProp data "paraphrased_summary"
  if truthy p then pure p
  else
    let q ← getProp data "summary"
    if truthy q then pure q else pure (.str "")

/-- The expression `data.corrected_text || ""`. -/
def correctedExpr (data : JsVal) : Except JsError JsVal := do
  let c ← getProp data "corrected_text"
  if truthy c then pure c else pure (.str "")

/-- The expression `data.metadata || {}`. -/
def metadataExpr (data : JsVal) : Except JsError JsVal := do
  let m ← getProp data "metadata"
  if truthy m then pure m else pure (.obj [])

/-- What the statements after the `await` in the `try` block leave behind:
the state, the effects, and the exception thrown, if any. -/
structure TryResult where
  state : HomeState
  effects : List Effect
  thrown : Option JsError

/-- The statements of the `try` block that follow `await axios.post(...)`,
run on the outcome of the call. -/
def afterAwait (outcome : HttpResult) (s : HomeState) : TryResult :=
  match outcome with
  | .rejected err => ⟨s, [], some err⟩
  | .resolved data =>
    match summaryExpr data with
    | .error e => ⟨s, [], some e⟩
    | .ok v1 =>
      let s1 := { s with previewSummary := v1 }
      match correctedExpr data with
      | .error e => ⟨s1, [], some e⟩
      | .ok v2 =>
        let s2 := { s1 with previewCorrected := v2 }
        match metadataExpr data with
        | .error e => ⟨s2, [], some e⟩
        | .ok v3 =>
          let s3 := { s2 with previewMetadata := v3 }
          ⟨s3, [.scrollPreviewAfter 120], none⟩

/-- The `catch` and `finally` clauses, run on the result of the `try` block:
`setError(err.message || "Something went wrong")` when something was thrown,
then `setLoading(false)`. -/
def catchFinally (r : TryResult) : HomeState :=
  let s :=
    match r.thrown with
    | none => r.state
    | some err =>
      { r.state with
        error := some (if err.message ≠ "" then err.message else "Something went wrong") }
  { s with loading := false }

/-- The part of `handleGenerate` that runs when the awaited call settles,
applied to the state of that moment. -/
def handleGenerateSettle (outcome : HttpResult) (s : HomeState) : HomeState × List Effect :=
  let r := afterAwait outcome s
  (catchFinally r, r.effects)

/-- The four resets `handleGenerate` starts with. -/
def resetPreview (s : HomeState) : HomeState :=
  { s with
    error := none
    previewSummary := .str ""
    previewCorrected := .str ""
    previewMetadata := .obj [] }

/-- The part of `handleGenerate` that runs before the call is awaited: the
resets, the blank-text guard, `setLoading(true)` and the POST.  The second
component is the request that is now pending, if one was sent. -/
def handleGenerateStart (s : HomeState) : HomeState × Option Payload :=
  let s0 := resetPreview s
  if trim s.text = "" then
    ({ s0 with error := some "Enter text to summarize." }, none)
  else
    ({ s0 with loading := true }, some (buildPayload s))

/-- The handler `handleGenerate`, run to completion with no other event in
between.  `http url body` is the outcome of `axios.post(url, body)`.  The
result is the final state and the effects performed, in order. -/
def handleGenerate (http : String → Payload → HttpResult) (s : HomeState) :
    HomeState × List Effect :=
  match handleGenerateStart s with
  | (s1, none) => (s1, [])
  | (s1, some body) =>
    let r := handleGenerateSettle (http BACKEND_URL body) s1
    (r.1, Effect.httpPost BACKEND_URL body :: r.2)

/-- The handler `openFull`: one navigation to `/result`, carrying the
preview and the two options as navigation state. -/
def openFull (s : HomeState) : List Effect :=
  [.navigate "/result"
    (.obj [("summary", s.previewSummary),
           ("corrected", s.previewCorrected),
           ("metadata", s.previewMetadata),
           ("style", .str s.style),
           ("summaryLen", .str s.summaryLen)])]

/-- The navigation state `openFull` hands to the router. -/
def openFullState (s : HomeState) : JsVal :=
  match openFull s with
  | [.navigate _ state] => state
  | _ => .undefined

/-! ## The Result View -/

/-- What `Result` reads from the location state. -/
structure ResultView where
  summary : JsVal
  corrected : JsVal
  metadata : JsVal
  style : JsVal
  length : JsVal

/-- The reads at the top of `Result`, on the `state` of `useLocation()`. -/
def Result (state : JsVal) : ResultView where
  summary := jsOr (optChain state "summary") (.str "")
  corrected := jsOr (optChain state "corrected") (.str "")
  metadata := jsOr (optChain state "metadata") (.obj [])
  style := optChain state "style"
  length := optChain state "summaryLen"

/-! ## Specification-side notions -/

/-- A text is blank when it is empty or holds whitespace only. -/
def isBlank (text : String) : Bool :=
  text.data.all isJsWhitespace

/-- Whether a maximal run of non-whitespace characters starts at index `i`:
the character at `i` is not whitespace, and `i` is the first index or the
character before is whitespace. -/
def isTokenStart (cs : List Char) (i : Nat) : Bool :=
  !isJsWhitespace (cs.getD i ' ') && (i == 0 || isJsWhitespace (cs.getD (i - 1) ' '))

/-- The number of whitespace-delimited non-empty tokens of a text: the
number of maximal runs of non-whitespace characters, each counted at the
index it starts at. -/
def tokenCount (text : String) : Nat :=
  (List.range text.data.length).countP (isTokenStart text.data)

/-- The runs of non-whitespace characters that start in `cs`, when
`prevWs` says whether a run may start at the head of `cs`. -/
def runsFrom : Bool → List Char → Nat
  | _, [] => 0
  | prevWs, c :: cs =>
    (if prevWs && !isJsWhitespace c then 1 else 0) + runsFrom (isJsWhitespace c) cs

/-- A value whose properties can be read: every value but `null` and
`undefined`. -/
def hasProperties : JsVal → Bool
  | .undefined => false
  | .null => false
  | _ => true

/-- A field that is present and a non-empty string. -/
def presentNonEmpty : JsVal → Bool
  | .str s => decide (s ≠ "")
  | _ => false

/-- A field of the body, or the default when the field is missing. -/
def orDefault (field dflt : JsVal) : JsVal :=
  match field with
  | .undefined => dflt
  | v => v

/-- The state the specification announces after a call that resolved with
the body `data`, in the specification's words: the summary is
`data.paraphrased_summary` when present and non-empty, otherwise
`data.summary` when present and non-empty, otherwise the empty string; the
corrected text is `data.corrected_text`, or the empty string when missing;
the metadata is `data.metadata`, or the empty mapping when missing; loading
is false and the error is `null`. -/
def SuccessAsSpecified (s : HomeState) (data : JsVal) : Prop :=
  s.previewSummary =
    (if presentNonEmpty (optChain data "paraphrased_summary") then
      optChain data "paraphrased_summary"
     else if presentNonEmpty (optChain data "summary") then optChain data "summary"
     else .str "") ∧
  s.previewCorrected = orDefault (optChain data "corrected_text") (.str "") ∧
  s.previewMetadata = orDefault (optChain data "metadata") (.obj []) ∧
  s.loading = false ∧
  s.error = none

/-- The state the specification announces after a failed call, in the
specification's words: loading is false, the error is a non-empty string,
and the preview summary, corrected text and metadata are empty. -/
def FailureAsSpecified (s : HomeState) : Prop :=
  s.loading = false ∧
  (∃ msg, s.error = some msg ∧ msg ≠ "") ∧
  s.previewSummary = .str "" ∧
  s.previewCorrected = .str "" ∧
  s.previewMetadata = .obj []

/-- The outcomes on which the `try` block throws: the promise rejects, or it
resolves with a body whose properties cannot be read (`null`, `undefined`). -/
def throwsInTry : HttpResult → Bool
  | .rejected _ => true
  | .resolved data => !hasProperties data

/-- The states of the Input View that its events lead to: the option
setters, the text box, and `handleGenerate`, both run to completion and as
its two halves with other events in between. -/
inductive Reachable : HomeState → Prop where
  | init : Reachable initialState
  | setSummaryLen (s : HomeState) (id : String) :
      Reachable s → id ∈ SUMMARY_OPTIONS → Reachable { s with summaryLen := id }
  | setStyle (s : HomeState) (id : String) :
      Reachable s → id ∈ STYLE_OPTIONS → Reachable { s with style := id }
  | setText (s : HomeState) (t : String) :
      Reachable s → Reachable { s with text := t }
  | generate (s : HomeState) (http : String → Payload → HttpResult) :
      Reachable s → Reachable (handleGenerate http s).1
  | generateStart (s : HomeState) :
      Reachable s → Reachable (handleGenerateStart s).1
  | generateSettle (s : HomeState) (outcome : HttpResult) :
      Reachable s → Reachable (handleGenerateSettle outcome s).1

/-- The shape every preview has: the summary and the corrected text are
truthy or the empty string, and the metadata is truthy. -/
def PreviewShape (s : HomeState) : Prop :=
  (truthy s.previewSummary = true ∨ s.previewSummary = .str "") ∧
  (truthy s.previewCorrected = true ∨ s.previewCorrected = .str "") ∧
  truthy s.previewMetadata = true

/-- A backend that answers every request with the same outcome. -/
def constHttp (outcome : HttpResult) : String → Payload → HttpResult :=
  fun _ _ => outcome

/-- A state with the given text and an earlier preview still in place. -/
def staleState (text : String) : HomeState where
  summaryLen := "concise"
  style := "executive"
  text := text
  loading := false
  error := some "old error"
  previewSummary := .str "old summary"
  previewCorrected := .str "old corrected"
  previewMetadata := .obj [("old", .num 7)]

/-- The mocked response `{paraphrased_summary:"S", corrected_text:"C", metadata:{a:1}}`. -/
def mockFull : JsVal :=
  .obj [("paraphrased_summary", .str "S"), ("corrected_text", .str "C"),
    ("metadata", .obj [("a", .num 1)])]

/-- The response `{paraphrased_summary:"S", corrected_text:null, metadata:null}`. -/
def mockNullFields : JsVal :=
  .obj [("paraphrased_summary", .str "S"), ("corrected_text", .null), ("metadata", .null)]

/-- The response `{paraphrased_summary:"S", corrected_text:false, metadata:0}`. -/
def mockFalsyFields : JsVal :=
  .obj [("paraphrased_summary", .str "S"), ("corrected_text", .bool false),
    ("metadata", .num 0)]

/-- A response body that is not JSON, which reaches the handler as a string. -/
def mockMalformed : JsVal :=
  .str "<html><body>Bad Gateway</body></html>"

/-- The mocked response `{summary:"S2"}`, without `paraphrased_summary`. -/
def mockFallback : JsVal :=
  .obj [("summary", .str "S2")]

/-- A state with a text to summarise and an earlier preview still in place. -/
def filledState : HomeState :=
  staleState "The cat sat. The cat sat on the mat."

/-- The state after typing a text and generating against a backend that
answers with `mockFull`. -/
def generatedState : HomeState :=
  (handleGenerate (constHttp (.resolved mockFull))
    { initialState with text := "The cat sat on the mat." }).1

/-! ## Basic facts -/

theorem strictEqStr_iff (v : JsVal) (lit : String) :
    strictEqStr v lit = true ↔ v = .str lit := by
  cases v <;> simp [strictEqStr]

theorem strictEqStr_of_ne (v : JsVal) (lit : String) (h : v ≠ .str lit) :
    strictEqStr v lit = false := by
  cases hb : strictEqStr v lit
  · rfl
  · exact absurd ((strictEqStr_iff v lit).1 hb) h

theorem trimChars_eq_nil_iff (cs : List Char) :
    trimChars cs = [] ↔ cs.all isJsWhitespace = true := by
  unfold trimChars
  rw [List.reverse_eq_nil_iff, List.dropWhile_eq_nil_iff]
  constructor
  · intro h
    have hnil : cs.dropWhile isJsWhitespace = [] := by
      by_contra hne
      have hhead := List.head_dropWhile_not isJsWhitespace cs hne
      have hmem := List.head_mem hne
      have := h _ (List.mem_reverse.2 hmem)
      simp [this] at hhead
    rw [List.dropWhile_eq_nil_iff] at hnil
    simpa [List.all_eq_true] using hnil
  · intro h x hx
    have hnil : cs.dropWhile isJsWhitespace = [] := by
      rw [List.dropWhile_eq_nil_iff]
      simpa [List.all_eq_true] using h
    rw [hnil] at hx
    simp at hx

theorem trim_eq_empty_iff (text : String) :
    trim text = "" ↔ isBlank text = true := by
  unfold trim isBlank
  rw [← trimChars_eq_nil_iff]
  constructor
  · intro h
    have := congrArg String.data h
    simpa using this
  · intro h
    rw [h]

theorem trim_ne_empty_iff (text : String) :
    trim text ≠ "" ↔ isBlank text = false := by
  rw [Ne, trim_eq_empty_iff]
  simp

theorem summaryPercentFromLen_cases (v : JsVal) :
    summaryPercentFromLen v = 12 ∨ summaryPercentFromLen v = 25 ∨
      summaryPercentFromLen v = 60 := by
  unfold summaryPercentFromLen
  split
  · exact Or.inl rfl
  · split
    · exact Or.inr (Or.inl rfl)
    · exact Or.inr (Or.inr rfl)

/-! ## The helpers `summaryPercentFromLen` and `buildTones` -/

/-- C6: `summaryPercentFromLen` returns 12 for "concise", 25 for "detailed",
60 for "comprehensive" and 60 for every other value, so its result is always
one of 12, 25 and 60. -/
theorem summaryPercentFromLen_spec :
    summaryPercentFromLen (.str "concise") = 12 ∧
    summaryPercentFromLen (.str "detailed") = 25 ∧
    summaryPercentFromLen (.str "comprehensive") = 60 ∧
    (∀ v : JsVal, v ≠ .str "concise" → v ≠ .str "detailed" →
      summaryPercentFromLen v = 60) ∧
    (∀ v : JsVal, summaryPercentFromLen v = 12 ∨ summaryPercentFromLen v = 25 ∨
      summaryPercentFromLen v = 60) := by
  refine ⟨by decide, by decide, by decide, ?_, ?_⟩
  · intro v h1 h2
    simp [summaryPercentFromLen, strictEqStr_of_ne v _ h1, strictEqStr_of_ne v _ h2]
  · exact summaryPercentFromLen_cases

/-- C7: `buildTones` returns formal 85 / concise 15 for "formal",
professional 80 / concise 20 for "professional", executive 70 / concise 30
for "executive" and formal 70 / concise 30 for every other style id, and the
weights of the returned mapping always sum to 100. -/
theorem buildTones_spec :
    buildTones (.str "formal") = [("formal", 85), ("concise", 15)] ∧
    buildTones (.str "professional") = [("professional", 80), ("concise", 20)] ∧
    buildTones (.str "executive") = [("executive", 70), ("concise", 30)] ∧
    (∀ v : JsVal, v ≠ .str "formal" → v ≠ .str "professional" → v ≠ .str "executive" →
      buildTones v = [("formal", 70), ("concise", 30)]) ∧
    (∀ v : JsVal, tonesTotal (buildTones v) = 100) := by
  refine ⟨by decide, by decide, by decide, ?_, ?_⟩
  · intro v h1 h2 h3
    simp [buildTones, strictEqStr_of_ne v _ h1, strictEqStr_of_ne v _ h2,
      strictEqStr_of_ne v _ h3]
  · intro v
    unfold buildTones
    split
    · rfl
    · split
      · rfl
      · split <;> rfl

/-! ## `handleGenerate` on a blank text -/

theorem handleGenerateStart_blank (s : HomeState) (h : isBlank s.text = true) :
    handleGenerateStart s =
      ({ resetPreview s with error := some "Enter text to summarize." }, none) := by
  unfold handleGenerateStart
  simp [(trim_eq_empty_iff s.text).2 h]

theorem handleGenerateStart_nonblank (s : HomeState) (h : isBlank s.text = false) :
    handleGenerateStart s =
      ({ resetPreview s with loading := true }, some (buildPayload s)) := by
  unfold handleGenerateStart
  simp [(trim_ne_empty_iff s.text).2 h]

theorem handleGenerate_blank (http : String → Payload → HttpResult) (s : HomeState)
    (h : isBlank s.text = true) :
    handleGenerate http s =
      ({ resetPreview s with error := some "Enter text to summarize." }, []) := by
  unfold handleGenerate
  rw [handleGenerateStart_blank s h]

theorem handleGenerate_nonblank (http : String → Payload → HttpResult) (s : HomeState)
    (h : isBlank s.text = false) :
    handleGenerate http s =
      ((handleGenerateSettle (http BACKEND_URL (buildPayload s))
          { resetPreview s with loading := true }).1,
        Effect.httpPost BACKEND_URL (buildPayload s) ::
          (handleGenerateSettle (http BACKEND_URL (buildPayload s))
            { resetPreview s with loading := true }).2) := by
  unfold handleGenerate
  rw [handleGenerateStart_nonblank s h]

/-- C1: on a blank text (empty or whitespace only), whatever the state
before and whatever the backend would answer, `handleGenerate` performs no
effect at all, so no HTTP POST, and ends with the error set to the non-empty
string "Enter text to summarize.". -/
theorem handleGenerate_blank_rejects (http : String → Payload → HttpResult)
    (s : HomeState) (h : isBlank s.text = true) :
    (handleGenerate http s).2 = [] ∧
    (∀ e ∈ (handleGenerate http s).2, e.isHttpPost = false) ∧
    (handleGenerate http s).1.error = some "Enter text to summarize." ∧
    ∃ msg, (handleGenerate http s).1.error = some msg ∧ msg ≠ "" := by
  rw [handleGenerate_blank http s h]
  refine ⟨rfl, ?_, rfl, "Enter text to summarize.", rfl, by decide⟩
  intro e he
  simp at he

theorem handleGenerate_blank_rejects_witness :
    isBlank (staleState " \n\t ").text = true ∧
    ((handleGenerate (constHttp (.resolved (.obj [("summary", .str "S")])))
        (staleState " \n\t ")).2 = [] ∧
      (∀ e ∈ (handleGenerate (constHttp (.resolved (.obj [("summary", .str "S")])))
        (staleState " \n\t ")).2, e.isHttpPost = false) ∧
      (handleGenerate (constHttp (.resolved (.obj [("summary", .str "S")])))
        (staleState " \n\t ")).1.error = some "Enter text to summarize." ∧
      ∃ msg, (handleGenerate (constHttp (.resolved (.obj [("summary", .str "S")])))
        (staleState " \n\t ")).1.error = some msg ∧ msg ≠ "") :=
  ⟨by decide, handleGenerate_blank_rejects _ _ (by decide)⟩

/-- C10: on a blank text `handleGenerate` still resets the preview summary,
the corrected text and the metadata to the empty string, the empty string
and the empty mapping, whatever they held, and leaves the loading flag, the
text, the selected length and the selected style as they were. -/
theorem handleGenerate_blank_frame (http : String → Payload → HttpResult)
    (s : HomeState) (h : isBlank s.text = true) :
    (handleGenerate http s).1.previewSummary = .str "" ∧
    (handleGenerate http s).1.previewCorrected = .str "" ∧
    (handleGenerate http s).1.previewMetadata = .obj [] ∧
    (handleGenerate http s).1.loading = s.loading ∧
    (handleGenerate http s).1.text = s.text ∧
    (handleGenerate http s).1.summaryLen = s.summaryLen ∧
    (handleGenerate http s).1.style = s.style := by
  rw [handleGenerate_blank http s h]
  exact ⟨rfl, rfl, rfl, rfl, rfl, rfl, rfl⟩

theorem handleGenerate_blank_frame_witness :
    isBlank (staleState "").text = true ∧
    (handleGenerate (constHttp (.rejected ⟨"Network Error"⟩)) (staleState "")).1.previewSummary
      = .str "" ∧
    (handleGenerate (constHttp (.rejected ⟨"Network Error"⟩)) (staleState "")).1.previewCorrected
      = .str "" ∧
    (handleGenerate (constHttp (.rejected ⟨"Network Error"⟩)) (staleState "")).1.previewMetadata
      = .obj [] ∧
    (handleGenerate (constHttp (.rejected ⟨"Network Error"⟩)) (staleState "")).1.loading
      = (staleState "").loading ∧
    (handleGenerate (constHttp (.rejected ⟨"Network Error"⟩)) (staleState "")).1.text
      = (staleState "").text ∧
    (handleGenerate (constHttp (.rejected ⟨"Network Error"⟩)) (staleState "")).1.summaryLen
      = (staleState "").summaryLen ∧
    (handleGenerate (constHttp (.rejected ⟨"Network Error"⟩)) (staleState "")).1.style
      = (staleState "").style :=
  ⟨by decide, handleGenerate_blank_frame _ _ (by decide)⟩

/-! ## The request `handleGenerate` sends -/

theorem afterAwait_effects (outcome : HttpResult) (s : HomeState) :
    (afterAwait outcome s).effects = [] ∨
      (afterAwait outcome s).effects = [.scrollPreviewAfter 120] := by
  unfold afterAwait
  split
  · exact Or.inl rfl
  · split
    · exact Or.inl rfl
    · split
      · exact Or.inl rfl
      · split
        · exact Or.inl rfl
        · exact Or.inr rfl

theorem handleGenerateSettle_effects (outcome : HttpResult) (s : HomeState) :
    (handleGenerateSettle outcome s).2 = [] ∨
      (handleGenerateSettle outcome s).2 = [.scrollPreviewAfter 120] :=
  afterAwait_effects outcome s

/-- C4: on a text that is not blank `handleGenerate` issues exactly one HTTP
POST, to `BACKEND_URL`, whose payload holds the raw text, the percentage of
the selected length, the tones of the selected style and the two flags set;
so every payload it submits has a text that is not empty after trimming and
a percentage among 12, 25 and 60. -/
theorem handleGenerate_posts_once (http : String → Payload → HttpResult)
    (s : HomeState) (h : isBlank s.text = false) :
    (handleGenerate http s).2.filter Effect.isHttpPost =
      [Effect.httpPost BACKEND_URL
        { text := s.text
          summary_length_percent := summaryPercentFromLen (.str s.summaryLen)
          tones := buildTones (.str s.style)
          do_grammar_correction := true
          paraphrase_after := true }] ∧
    ∀ url body, Effect.httpPost url body ∈ (handleGenerate http s).2 →
      trim body.text ≠ "" ∧
      (body.summary_length_percent = 12 ∨ body.summary_length_percent = 25 ∨
        body.summary_length_percent = 60) := by
  rw [handleGenerate_nonblank http s h]
  have hpay : trim (buildPayload s).text ≠ "" ∧
      ((buildPayload s).summary_length_percent = 12 ∨
        (buildPayload s).summary_length_percent = 25 ∨
        (buildPayload s).summary_length_percent = 60) :=
    ⟨(trim_ne_empty_iff s.text).2 h, summaryPercentFromLen_cases _⟩
  rcases handleGenerateSettle_effects (http BACKEND_URL (buildPayload s))
      { resetPreview s with loading := true } with he | he
  · rw [he]
    refine ⟨rfl, ?_⟩
    intro url body hmem
    simp only [List.mem_singleton, Effect.httpPost.injEq] at hmem
    rw [hmem.2]
    exact hpay
  · rw [he]
    refine ⟨rfl, ?_⟩
    intro url body hmem
    simp only [List.mem_cons, Effect.httpPost.injEq, List.mem_singleton, reduceCtorEq,
      or_false, List.not_mem_nil] at hmem
    rw [hmem.2]
    exact hpay

theorem handleGenerate_posts_once_witness :
    isBlank (staleState "a  b   c").text = false ∧
    ((handleGenerate (constHttp (.resolved (.obj []))) (staleState "a  b   c")).2.filter
        Effect.isHttpPost =
      [Effect.httpPost BACKEND_URL
        { text := (staleState "a  b   c").text
          summary_length_percent :=
            summaryPercentFromLen (.str (staleState "a  b   c").summaryLen)
          tones := buildTones (.str (staleState "a  b   c").style)
          do_grammar_correction := true
          paraphrase_after := true }] ∧
    ∀ url body, Effect.httpPost url body ∈
        (handleGenerate (constHttp (.resolved (.obj []))) (staleState "a  b   c")).2 →
      trim body.text ≠ "" ∧
      (body.summary_length_percent = 12 ∨ body.summary_length_percent = 25 ∨
        body.summary_length_percent = 60)) :=
  ⟨by decide, handleGenerate_posts_once _ _ (by decide)⟩

/-! ## `handleGenerate` when the call succeeds -/

theorem getProp_of_hasProps (data : JsVal) (key : String)
    (h : hasProperties data = true) :
    getProp data key = .ok (optChain data key) := by
  cases data <;> simp_all [getProp, optChain, hasProperties]

theorem afterAwait_resolved (data : JsVal) (s : HomeState) (v1 v2 v3 : JsVal)
    (h1 : summaryExpr data = .ok v1) (h2 : correctedExpr data = .ok v2)
    (h3 : metadataExpr data = .ok v3) :
    afterAwait (.resolved data) s =
      ⟨{ s with previewSummary := v1, previewCorrected := v2, previewMetadata := v3 },
        [.scrollPreviewAfter 120], none⟩ := by
  simp [afterAwait, h1, h2, h3]

theorem summaryExpr_of_hasProps (data : JsVal)
    (h : hasProperties data = true) :
    summaryExpr data = .ok
      (if truthy (optChain data "paraphrased_summary") then optChain data "paraphrased_summary"
       else if truthy (optChain data "summary") then optChain data "summary"
       else .str "") := by
  unfold summaryExpr
  rw [getProp_of_hasProps data _ h, getProp_of_hasProps data _ h]
  simp only [bind, Except.bind, pure, Except.pure]
  split
  · rfl
  · split <;> rfl

theorem correctedExpr_of_hasProps (data : JsVal)
    (h : hasProperties data = true) :
    correctedExpr data = .ok (jsOr (optChain data "corrected_text") (.str "")) := by
  unfold correctedExpr jsOr
  rw [getProp_of_hasProps data _ h]
  simp only [bind, Except.bind, pure, Except.pure]
  split <;> rfl

theorem metadataExpr_of_hasProps (data : JsVal)
    (h : hasProperties data = true) :
    metadataExpr data = .ok (jsOr (optChain data "metadata") (.obj [])) := by
  unfold metadataExpr jsOr
  rw [getProp_of_hasProps data _ h]
  simp only [bind, Except.bind, pure, Except.pure]
  split <;> rfl

/-- C2 (amended): when the text is not blank and the call resolves with a
body `data` other than `null` and `undefined`, `handleGenerate` ends with
the preview summary equal to `data.paraphrased_summary` when that is truthy,
else to `data.summary` when that is truthy, else to the empty string; with
the corrected text equal to `data.corrected_text` when that is truthy, else
to the empty string; with the metadata equal to `data.metadata` when that is
truthy, else to the empty mapping; with the loading flag cleared and the
error `null`.  A missing field reads as `undefined`, which is not truthy. -/
theorem handleGenerate_resolved (http : String → Payload → HttpResult) (s : HomeState)
    (data : JsVal) (h : isBlank s.text = false)
    (hres : http BACKEND_URL (buildPayload s) = .resolved data)
    (hprops : hasProperties data = true) :
    (handleGenerate http s).1.previewSummary =
      (if truthy (optChain data "paraphrased_summary") then
        optChain data "paraphrased_summary"
       else if truthy (optChain data "summary") then optChain data "summary"
       else .str "") ∧
    (handleGenerate http s).1.previewCorrected =
      (if truthy (optChain data "corrected_text") then optChain data "corrected_text"
       else .str "") ∧
    (handleGenerate http s).1.previewMetadata =
      (if truthy (optChain data "metadata") then optChain data "metadata" else .obj []) ∧
    (handleGenerate http s).1.loading = false ∧
    (handleGenerate http s).1.error = none := by
  rw [handleGenerate_nonblank http s h, hres]
  simp only [handleGenerateSettle]
  rw [afterAwait_resolved data _ _ _ _ (summaryExpr_of_hasProps data hprops)
    (correctedExpr_of_hasProps data hprops) (metadataExpr_of_hasProps data hprops)]
  simp only [catchFinally, jsOr]
  refine ⟨?_, ?_, ?_, ?_, ?_⟩ <;> first | rfl | trivial

theorem handleGenerate_resolved_witness :
    (isBlank filledState.text = false ∧
      constHttp (.resolved mockFull) BACKEND_URL (buildPayload filledState) =
        .resolved mockFull ∧
      hasProperties mockFull = true) ∧
    ((handleGenerate (constHttp (.resolved mockFull)) filledState).1.previewSummary =
        (if truthy (optChain mockFull "paraphrased_summary") then
          optChain mockFull "paraphrased_summary"
         else if truthy (optChain mockFull "summary") then optChain mockFull "summary"
         else .str "") ∧
      (handleGenerate (constHttp (.resolved mockFull)) filledState).1.previewCorrected =
        (if truthy (optChain mockFull "corrected_text") then optChain mockFull "corrected_text"
         else .str "") ∧
      (handleGenerate (constHttp (.resolved mockFull)) filledState).1.previewMetadata =
        (if truthy (optChain mockFull "metadata") then optChain mockFull "metadata"
         else .obj []) ∧
      (handleGenerate (constHttp (.resolved mockFull)) filledState).1.loading = false ∧
      (handleGenerate (constHttp (.resolved mockFull)) filledState).1.error = none) ∧
    ((handleGenerate (constHttp (.resolved mockFull)) filledState).1.previewSummary = .str "S" ∧
      (handleGenerate (constHttp (.resolved mockFull)) filledState).1.previewCorrected =
        .str "C" ∧
      (handleGenerate (constHttp (.resolved mockFull)) filledState).1.previewMetadata =
        .obj [("a", .num 1)]) ∧
    (handleGenerate (constHttp (.resolved mockFallback)) filledState).1.previewSummary =
      .str "S2" :=
  ⟨⟨by decide, rfl, by decide⟩,
    handleGenerate_resolved _ _ mockFull (by decide) rfl (by decide),
    ⟨rfl, rfl, rfl⟩,
    rfl⟩

/-- C2 as stated fails: the call resolves with
`{paraphrased_summary:"S", corrected_text:null, metadata:null}`, in which
`corrected_text` and `metadata` are present; `handleGenerate` stores the
empty string and the empty mapping, not the two fields.  The same happens
with `{paraphrased_summary:"S", corrected_text:false, metadata:0}`. -/
theorem handleGenerate_success_counterexample :
    isBlank filledState.text = false ∧
    constHttp (.resolved mockNullFields) BACKEND_URL (buildPayload filledState) =
      .resolved mockNullFields ∧
    optChain mockNullFields "corrected_text" = .null ∧
    optChain mockNullFields "metadata" = .null ∧
    (handleGenerate (constHttp (.resolved mockNullFields)) filledState).1.previewCorrected =
      .str "" ∧
    (handleGenerate (constHttp (.resolved mockNullFields)) filledState).1.previewMetadata =
      .obj [] ∧
    (handleGenerate (constHttp (.resolved mockNullFields)) filledState).1.error = none ∧
    ¬ SuccessAsSpecified
      (handleGenerate (constHttp (.resolved mockNullFields)) filledState).1 mockNullFields ∧
    ¬ SuccessAsSpecified
      (handleGenerate (constHttp (.resolved mockFalsyFields)) filledState).1
      mockFalsyFields := by
  refine ⟨by decide, rfl, rfl, rfl, rfl, rfl, rfl, ?_, ?_⟩
  · intro hspec
    have hc : JsVal.str "" = JsVal.null := hspec.2.1
    cases hc
  · intro hspec
    have hc : JsVal.str "" = JsVal.bool false := hspec.2.1
    cases hc

/-! ## `handleGenerate` when the call fails -/

theorem fallback_message_ne_empty (m : String) :
    (if m ≠ "" then m else "Something went wrong") ≠ "" := by
  split
  · assumption
  · decide

theorem afterAwait_failure (outcome : HttpResult) (s : HomeState)
    (h : throwsInTry outcome = true) :
    (afterAwait outcome s).state = s ∧ ∃ err, (afterAwait outcome s).thrown = some err ∧
      ∀ e, outcome = .rejected e → err = e := by
  cases outcome with
  | rejected err =>
    refine ⟨rfl, err, rfl, ?_⟩
    intro e he
    cases he
    rfl
  | resolved data =>
    cases data <;>
      simp_all [throwsInTry, hasProperties, afterAwait, summaryExpr, getProp, bind, Except.bind]

/-- C3 (amended): when the text is not blank and the call rejects, or
resolves with a `null` or `undefined` body, so that the `try` block throws,
`handleGenerate` ends with the loading flag cleared, with the error set to a
non-empty string, which is the message of the rejection whenever that is not
empty, and with the preview summary, the corrected text and the metadata
empty, whatever they were before the call. -/
theorem handleGenerate_failure (http : String → Payload → HttpResult) (s : HomeState)
    (h : isBlank s.text = false)
    (hfail : throwsInTry (http BACKEND_URL (buildPayload s)) = true) :
    (handleGenerate http s).1.loading = false ∧
    (∃ msg, (handleGenerate http s).1.error = some msg ∧ msg ≠ "") ∧
    (∀ err, http BACKEND_URL (buildPayload s) = .rejected err → err.message ≠ "" →
      (handleGenerate http s).1.error = some err.message) ∧
    (handleGenerate http s).1.previewSummary = .str "" ∧
    (handleGenerate http s).1.previewCorrected = .str "" ∧
    (handleGenerate http s).1.previewMetadata = .obj [] := by
  rw [handleGenerate_nonblank http s h]
  obtain ⟨hst, err, hthrown, herr⟩ :=
    afterAwait_failure (http BACKEND_URL (buildPayload s))
      { resetPreview s with loading := true } hfail
  simp only [handleGenerateSettle, catchFinally, hthrown, hst]
  refine ⟨trivial, ⟨_, rfl, fallback_message_ne_empty err.message⟩, ?_, rfl, rfl, rfl⟩
  intro e he hne
  rw [herr e he, if_pos hne]

theorem handleGenerate_failure_witness :
    (isBlank filledState.text = false ∧
      throwsInTry (constHttp (.rejected ⟨"Network Error"⟩) BACKEND_URL
        (buildPayload filledState)) = true) ∧
    ((handleGenerate (constHttp (.rejected ⟨"Network Error"⟩)) filledState).1.loading = false ∧
      (∃ msg, (handleGenerate (constHttp (.rejected ⟨"Network Error"⟩)) filledState).1.error =
        some msg ∧ msg ≠ "") ∧
      (∀ err, constHttp (.rejected ⟨"Network Error"⟩) BACKEND_URL (buildPayload filledState) =
          .rejected err → err.message ≠ "" →
        (handleGenerate (constHttp (.rejected ⟨"Network Error"⟩)) filledState).1.error =
          some err.message) ∧
      (handleGenerate (constHttp (.rejected ⟨"Network Error"⟩)) filledState).1.previewSummary =
        .str "" ∧
      (handleGenerate (constHttp (.rejected ⟨"Network Error"⟩)) filledState).1.previewCorrected =
        .str "" ∧
      (handleGenerate (constHttp (.rejected ⟨"Network Error"⟩)) filledState).1.previewMetadata =
        .obj []) ∧
    (handleGenerate (constHttp (.rejected ⟨"Network Error"⟩)) filledState).1.error =
      some "Network Error" ∧
    (handleGenerate (constHttp (.rejected ⟨""⟩)) filledState).1.error =
      some "Something went wrong" ∧
    (handleGenerate (constHttp (.resolved .null)) filledState).1.error =
      some (typeErrorMessage "null" "paraphrased_summary") :=
  ⟨⟨by decide, rfl⟩, handleGenerate_failure _ _ (by decide) rfl, by decide, by decide,
    by decide⟩

/-- C3 as stated fails: on a malformed response body that is not JSON,
which the call resolves with as a string, nothing throws; `handleGenerate`
ends with the error `null`, not with a non-empty string. -/
theorem handleGenerate_failure_counterexample :
    isBlank filledState.text = false ∧
    constHttp (.resolved mockMalformed) BACKEND_URL (buildPayload filledState) =
      .resolved mockMalformed ∧
    (handleGenerate (constHttp (.resolved mockMalformed)) filledState).1.error = none ∧
    ¬ FailureAsSpecified
      (handleGenerate (constHttp (.resolved mockMalformed)) filledState).1 := by
  refine ⟨by decide, rfl, rfl, ?_⟩
  intro hspec
  obtain ⟨msg, hmsg, _⟩ := hspec.2.1
  have hc : (none : Option String) = some msg := hmsg
  cases hc

/-! ## The Result View -/

/-- C8: entered with no navigation state (`undefined` or `null`), `Result`
reads the empty string for the summary and for the corrected text and the
empty mapping for the metadata; and for every navigation state, each of the
three fields that is missing from it takes that default. -/
theorem Result_defaults :
    Result .undefined = ⟨.str "", .str "", .obj [], .undefined, .undefined⟩ ∧
    Result .null = ⟨.str "", .str "", .obj [], .undefined, .undefined⟩ ∧
    ∀ state : JsVal,
      (optChain state "summary" = .undefined → (Result state).summary = .str "") ∧
      (optChain state "corrected" = .undefined → (Result state).corrected = .str "") ∧
      (optChain state "metadata" = .undefined → (Result state).metadata = .obj []) := by
  refine ⟨rfl, rfl, ?_⟩
  intro state
  refine ⟨?_, ?_, ?_⟩ <;> intro h <;> simp [Result, jsOr, h, truthy]

/-! ## From `openFull` to `Result` -/

theorem summaryExpr_shape (data v : JsVal) (h : summaryExpr data = .ok v) :
    truthy v = true ∨ v = .str "" := by
  unfold summaryExpr at h
  cases hp : getProp data "paraphrased_summary" with
  | error e => simp [hp, bind, Except.bind] at h
  | ok p =>
    cases hq : getProp data "summary" with
    | error e =>
      simp only [hp, hq, bind, Except.bind, pure, Except.pure] at h
      split at h
      · cases h
        left
        assumption
      · cases h
    | ok q =>
      simp only [hp, hq, bind, Except.bind, pure, Except.pure] at h
      split at h
      · cases h
        left
        assumption
      · split at h
        · cases h
          left
          assumption
        · cases h
          right
          rfl

theorem correctedExpr_shape (data v : JsVal) (h : correctedExpr data = .ok v) :
    truthy v = true ∨ v = .str "" := by
  unfold correctedExpr at h
  cases hc : getProp data "corrected_text" with
  | error e => simp [hc, bind, Except.bind] at h
  | ok c =>
    simp only [hc, bind, Except.bind, pure, Except.pure] at h
    split at h
    · cases h
      left
      assumption
    · cases h
      right
      rfl

theorem metadataExpr_shape (data v : JsVal) (h : metadataExpr data = .ok v) :
    truthy v = true := by
  unfold metadataExpr at h
  cases hm : getProp data "metadata" with
  | error e => simp [hm, bind, Except.bind] at h
  | ok m =>
    simp only [hm, bind, Except.bind, pure, Except.pure] at h
    split at h
    · cases h
      assumption
    · cases h
      rfl

theorem afterAwait_shape (outcome : HttpResult) (s : HomeState) (h : PreviewShape s) :
    PreviewShape (afterAwait outcome s).state := by
  obtain ⟨h1, h2, h3⟩ := h
  cases outcome with
  | rejected err => exact ⟨h1, h2, h3⟩
  | resolved data =>
    cases hs : summaryExpr data with
    | error e =>
      simp only [afterAwait, hs]
      exact ⟨h1, h2, h3⟩
    | ok v1 =>
      cases hc : correctedExpr data with
      | error e =>
        simp only [afterAwait, hs, hc]
        exact ⟨summaryExpr_shape data v1 hs, h2, h3⟩
      | ok v2 =>
        cases hm : metadataExpr data with
        | error e =>
          simp only [afterAwait, hs, hc, hm]
          exact ⟨summaryExpr_shape data v1 hs, correctedExpr_shape data v2 hc, h3⟩
        | ok v3 =>
          simp only [afterAwait, hs, hc, hm]
          exact ⟨summaryExpr_shape data v1 hs, correctedExpr_shape data v2 hc,
            metadataExpr_shape data v3 hm⟩

theorem catchFinally_shape (r : TryResult) (h : PreviewShape r.state) :
    PreviewShape (catchFinally r) := by
  unfold catchFinally
  cases r.thrown <;> exact h

theorem handleGenerateSettle_shape (outcome : HttpResult) (s : HomeState)
    (h : PreviewShape s) : PreviewShape (handleGenerateSettle outcome s).1 :=
  catchFinally_shape _ (afterAwait_shape outcome s h)

theorem handleGenerateStart_shape (s : HomeState) :
    PreviewShape (handleGenerateStart s).1 := by
  unfold handleGenerateStart
  split <;> exact ⟨Or.inr rfl, Or.inr rfl, rfl⟩

theorem handleGenerate_shape (http : String → Payload → HttpResult) (s : HomeState) :
    PreviewShape (handleGenerate http s).1 := by
  have hstart := handleGenerateStart_shape s
  unfold handleGenerate
  cases hs : handleGenerateStart s with
  | mk s1 pending =>
    rw [hs] at hstart
    cases pending with
    | none => exact hstart
    | some body => exact handleGenerateSettle_shape _ _ hstart

theorem reachable_shape (s : HomeState) (h : Reachable s) : PreviewShape s := by
  induction h with
  | init => exact ⟨Or.inr rfl, Or.inr rfl, rfl⟩
  | setSummaryLen s id _ _ ih => exact ih
  | setStyle s id _ _ ih => exact ih
  | setText s t _ ih => exact ih
  | generate s http _ _ => exact handleGenerate_shape http s
  | generateStart s _ _ => exact handleGenerateStart_shape s
  | generateSettle s outcome _ ih => exact handleGenerateSettle_shape outcome s ih

theorem jsOr_of_shape (v d : JsVal) (h : truthy v = true ∨ v = d) : jsOr v d = v := by
  unfold jsOr
  rcases h with h | h
  · rw [if_pos h]
  · split
    · rfl
    · exact h.symm

theorem Result_openFullState (s : HomeState) (h : PreviewShape s) :
    Result (openFullState s) =
      ⟨s.previewSummary, s.previewCorrected, s.previewMetadata, .str s.style,
        .str s.summaryLen⟩ := by
  obtain ⟨h1, h2, h3⟩ := h
  have e1 : optChain (openFullState s) "summary" = s.previewSummary := by
    simp [openFullState, openFull, optChain, lookupField]
  have e2 : optChain (openFullState s) "corrected" = s.previewCorrected := by
    simp [openFullState, openFull, optChain, lookupField]
  have e3 : optChain (openFullState s) "metadata" = s.previewMetadata := by
    simp [openFullState, openFull, optChain, lookupField]
  have e4 : optChain (openFullState s) "style" = .str s.style := by
    simp [openFullState, openFull, optChain, lookupField]
  have e5 : optChain (openFullState s) "summaryLen" = .str s.summaryLen := by
    simp [openFullState, openFull, optChain, lookupField]
  unfold Result
  rw [e1, e2, e3, e4, e5, jsOr_of_shape _ _ h1, jsOr_of_shape _ _ h2,
    jsOr_of_shape _ _ (Or.inl h3)]

/-- C9: in every state of the Input View reached through the setters and
`handleGenerate`, `openFull` performs one navigation to `/result` whose
state holds the preview summary, the corrected text, the metadata, the style
and the length under the keys `summary`, `corrected`, `metadata`, `style`
and `summaryLen`; `Result`, reading that state, obtains exactly these five
values; and `openFull` performs no HTTP POST (`Result` performs no effect). -/
theorem openFull_Result_roundtrip (s : HomeState) (h : Reachable s) :
    openFull s =
      [.navigate "/result"
        (.obj [("summary", s.previewSummary), ("corrected", s.previewCorrected),
          ("metadata", s.previewMetadata), ("style", .str s.style),
          ("summaryLen", .str s.summaryLen)])] ∧
    Result (openFullState s) =
      ⟨s.previewSummary, s.previewCorrected, s.previewMetadata, .str s.style,
        .str s.summaryLen⟩ ∧
    ∀ e ∈ openFull s, e.isHttpPost = false := by
  refine ⟨rfl, Result_openFullState s (reachable_shape s h), ?_⟩
  intro e he
  simp only [openFull, List.mem_singleton] at he
  rw [he]
  rfl

theorem openFull_Result_roundtrip_witness :
    Reachable generatedState ∧
    (openFull generatedState =
        [.navigate "/result"
          (.obj [("summary", generatedState.previewSummary),
            ("corrected", generatedState.previewCorrected),
            ("metadata", generatedState.previewMetadata),
            ("style", .str generatedState.style),
            ("summaryLen", .str generatedState.summaryLen)])] ∧
      Result (openFullState generatedState) =
        ⟨generatedState.previewSummary, generatedState.previewCorrected,
          generatedState.previewMetadata, .str generatedState.style,
          .str generatedState.summaryLen⟩ ∧
      ∀ e ∈ openFull generatedState, e.isHttpPost = false) ∧
    Result (openFullState generatedState) =
      ⟨.str "S", .str "C", .obj [("a", .num 1)], .str "formal", .str "detailed"⟩ :=
  ⟨Reachable.generate _ _ (Reachable.setText _ _ Reachable.init),
    openFull_Result_roundtrip generatedState
      (Reachable.generate _ _ (Reachable.setText _ _ Reachable.init)),
    rfl⟩

/-! ## The word count -/

theorem countP_range_eq_runsFrom (b : Bool) (cs : List Char) :
    (List.range cs.length).countP
      (fun i => !isJsWhitespace (cs.getD i ' ') &&
        (if i = 0 then b else isJsWhitespace (cs.getD (i - 1) ' '))) = runsFrom b cs := by
  induction cs generalizing b with
  | nil => rfl
  | cons c cs ih =>
    rw [List.length_cons, List.range_succ_eq_map, List.countP_cons, List.countP_map]
    have hfun : ((fun i => !isJsWhitespace ((c :: cs).getD i ' ') &&
          (if i = 0 then b else isJsWhitespace ((c :: cs).getD (i - 1) ' '))) ∘ Nat.succ) =
        (fun i => !isJsWhitespace (cs.getD i ' ') &&
          (if i = 0 then isJsWhitespace c else isJsWhitespace (cs.getD (i - 1) ' '))) := by
      funext i
      cases i with
      | zero => simp
      | succ j => simp
    rw [hfun, ih (isJsWhitespace c)]
    simp only [runsFrom, List.getD_cons_zero, if_true]
    cases b <;> cases isJsWhitespace c <;> simp [Nat.add_comm]

theorem tokenCount_eq_runsFrom (text : String) :
    tokenCount text = runsFrom true text.data := by
  unfold tokenCount
  rw [← countP_range_eq_runsFrom true text.data]
  congr 1
  funext i
  unfold isTokenStart
  cases i <;> simp

theorem splitWsAux_count (cs : List Char) (inSep : Bool) (cur : List Char)
    (h : inSep = true → cur = []) :
    ((splitWsAux cs inSep cur).filter (fun l => decide (l ≠ []))).length =
      (if cur = [] then 0 else 1) + runsFrom cur.isEmpty cs := by
  induction cs generalizing inSep cur with
  | nil =>
    cases cur <;> simp [splitWsAux, runsFrom]
  | cons c cs ih =>
    unfold splitWsAux
    by_cases hc : isJsWhitespace c = true
    · rw [if_pos hc]
      by_cases hs : inSep = true
      · rw [if_pos hs, ih true [] (fun _ => rfl), h hs]
        simp [runsFrom, hc]
      · rw [if_neg hs, List.filter_cons]
        have ih0 := ih true [] (fun _ => rfl)
        cases cur with
        | nil =>
          simp [runsFrom, hc] at ih0 ⊢
          exact ih0
        | cons d ds =>
          simp [runsFrom, hc] at ih0 ⊢
          omega
    · rw [if_neg hc, ih false (c :: cur) (fun hf => by cases hf)]
      have hc' : isJsWhitespace c = false := by simpa using hc
      cases cur with
      | nil => simp [runsFrom, hc']
      | cons d ds => simp [runsFrom, hc']

theorem runsFrom_dropWhile (cs : List Char) :
    runsFrom true (cs.dropWhile isJsWhitespace) = runsFrom true cs := by
  induction cs with
  | nil => rfl
  | cons c cs ih =>
    by_cases hc : isJsWhitespace c = true
    · rw [List.dropWhile_cons_of_pos hc, ih]
      simp [runsFrom, hc]
    · rw [List.dropWhile_cons_of_neg hc]

theorem runsFrom_append_whitespace (b : Bool) (cs : List Char) (x : Char)
    (hx : isJsWhitespace x = true) : runsFrom b (cs ++ [x]) = runsFrom b cs := by
  induction cs generalizing b with
  | nil => simp [runsFrom, hx]
  | cons c cs ih => simp [runsFrom, ih]

theorem runsFrom_rdropWhile (b : Bool) (cs : List Char) :
    runsFrom b (cs.rdropWhile isJsWhitespace) = runsFrom b cs := by
  induction cs using List.reverseRecOn with
  | nil => rfl
  | append_singleton l x ih =>
    by_cases hx : isJsWhitespace x = true
    · rw [List.rdropWhile_concat_pos _ _ _ hx, ih, runsFrom_append_whitespace b l x hx]
    · rw [List.rdropWhile_concat_neg _ _ _ hx]

theorem runsFrom_trimChars (cs : List Char) :
    runsFrom true (trimChars cs) = runsFrom true cs := by
  have h : trimChars cs = (cs.dropWhile isJsWhitespace).rdropWhile isJsWhitespace := rfl
  rw [h, runsFrom_rdropWhile, runsFrom_dropWhile]

theorem runsFrom_pos (cs : List Char) (h : cs.all isJsWhitespace = false) :
    1 ≤ runsFrom true cs := by
  induction cs with
  | nil => simp at h
  | cons c cs ih =>
    by_cases hc : isJsWhitespace c = true
    · have hrest : cs.all isJsWhitespace = false := by
        simpa [List.all_cons, hc] using h
      have := ih hrest
      simp [runsFrom, hc]
      exact this
    · have hc' : isJsWhitespace c = false := by simpa using hc
      simp [runsFrom, hc']

theorem splitWhitespace_count (s : String) :
    ((splitWhitespace s).filter (fun t => decide (t ≠ ""))).length =
      runsFrom true s.data := by
  unfold splitWhitespace
  rw [List.filter_map, List.length_map]
  have hfun : ((fun t : String => decide (t ≠ "")) ∘ String.mk) =
      (fun l : List Char => decide (l ≠ [])) := by
    funext l
    have : (String.mk l = "") = (l = []) := by
      apply propext
      constructor
      · intro h
        exact congrArg String.data h
      · intro h
        rw [h]
    simp only [Function.comp, ne_eq, this]
  rw [hfun, splitWsAux_count s.data false [] (fun hf => by cases hf)]
  simp

theorem wordCount_eq (text : String) :
    wordCount text = if isBlank text then 0 else tokenCount text := by
  unfold wordCount
  by_cases hb : isBlank text = true
  · rw [if_pos ((trim_eq_empty_iff text).2 hb), if_pos hb]
  · have hb' : isBlank text = false := by simpa using hb
    rw [if_neg ((trim_ne_empty_iff text).2 hb'), if_neg hb, splitWhitespace_count,
      tokenCount_eq_runsFrom]
    exact runsFrom_trimChars text.data

/-- C5: the word count is 0 on a text that is empty or holds whitespace
only, and on every other text it is the number of whitespace-delimited
non-empty tokens, that is the number of maximal runs of non-whitespace
characters, which is at least 1; the empty text and the text of two blanks
give 0, and "a  b   c" gives 3. -/
theorem wordCount_spec :
    (∀ text : String, wordCount text = if isBlank text then 0 else tokenCount text) ∧
    (∀ text : String, isBlank text = false → 1 ≤ wordCount text) ∧
    wordCount "" = 0 ∧ wordCount "  " = 0 ∧ wordCount "a  b   c" = 3 := by
  refine ⟨wordCount_eq, ?_, by decide, by decide, by decide⟩
  intro text hb
  rw [wordCount_eq, hb, tokenCount_eq_runsFrom]
  exact runsFrom_pos text.data hb

end Summariser
